import Mathlib

/-!
# Verification of the Sonicare BLE parser

A shallow embedding of `src/sonicare_ble/parser.py`: the advertisement
identity resolver (`_start_update`), the characteristic-value decoder
(`process_characteristic_value`), the poll cadence policy (`poll_needed`)
and the poll-cycle orchestration (`async_poll`), together with theorems
settling the claims of the specification about them.

Byte strings are `List Nat`; timestamps and intervals are `Int` (the Python
code uses floats from `time.monotonic`, but only compares and subtracts
them). Fallible byte access (`value[0]` on an empty buffer raises
`IndexError`) is rendered as `Option`.
-/

namespace Sonicare

/-- A sensor value is either numeric or a string label, matching the two
kinds of values the parser stores via `update_sensor`. -/
inductive SVal where
  | nat (n : Nat)
  | str (s : String)
deriving DecidableEq, Repr

/-- One recorded sensor reading: unit tag, value, device class, display
label, as passed to `update_sensor`. -/
structure SensorReading where
  unit : Option String
  value : SVal
  deviceClass : Option String
  label : String
deriving DecidableEq, Repr

/-- Latest-wins insertion into an association list: overwrite the value for
an existing key in place, append a new key at the end (the semantics of
the accumulator method `update_sensor`: one reading per key, insertion order kept). -/
def setKey {α : Type} (k : String) (v : α) : List (String × α) → List (String × α)
  | [] => [(k, v)]
  | (k', v') :: rest => if k' = k then (k, v) :: rest else (k', v') :: setKey k v rest

/-- The mutable per-device data owned by `SonicareBluetoothDeviceData`:
the identity fields and reading maps held by the `BluetoothData`
accumulator, plus the `_brushing` / `_last_brush` attributes owned by the
class itself. -/
structure DeviceData where
  manufacturer : Option String
  deviceType : Option String
  deviceName : Option String
  title : Option String
  sensors : List (String × SensorReading)
  binarySensors : List (String × Bool)
  brushing : Bool
  lastBrush : Int
deriving DecidableEq, Repr

/-- Python `__init__`: fresh accumulator, `_brushing = False`, `_last_brush = 0.0`. -/
def initDeviceData : DeviceData :=
  { manufacturer := none
    deviceType := none
    deviceName := none
    title := none
    sensors := []
    binarySensors := []
    brushing := false
    lastBrush := 0 }

/-- Python `update_sensor(key, unit, value, device_class, name)` on the
accumulator: record the latest reading for `key`. -/
def update_sensor (st : DeviceData) (key : String) (unit : Option String)
    (value : SVal) (deviceClass : Option String) (label : String) : DeviceData :=
  { st with sensors := setKey key ⟨unit, value, deviceClass, label⟩ st.sensors }

/-- Python `STATES`: the fixed 8-entry handle-session-state table. -/
def STATES : Nat → Option String
  | 0 => some "off"
  | 1 => some "standby"
  | 2 => some "brushing"
  | 3 => some "charging"
  | 4 => some "shutdown"
  | 5 => some "validate"
  | 6 => some "unknown6"
  | 7 => some "unknown7"
  | _ => none

/-- Python `SONICARE_MANUFACTURER = 477`. -/
def SONICARE_MANUFACTURER : Nat := 477

/-- Modelled from the spec: the characteristic identifiers live in
`const.py`, which is not under `src/`; per the spec they are opaque
UUID-equivalent handles matched by equality against a fixed known set, so
each is embedded as a distinct placeholder string. -/
def CHARACTERISTIC_BATTERY_LEVEL : String := "characteristic-battery-level"

/-- Modelled from the spec: opaque handle-session-state characteristic id
from the missing `const.py`. -/
def CHARACTERISTIC_UPDATED_HANDLE_SESSION_STATE : String :=
  "characteristic-updated-handle-session-state"

/-- Modelled from the spec: opaque brushing-time characteristic id from
the missing `const.py`. -/
def CHARACTERISTIC_BRUSHING_TIME : String := "characteristic-brushing-time"

/-- Modelled from the spec: opaque available-brushing-routine
characteristic id from the missing `const.py`. -/
def CHARACTERISTIC_AVAILABLE_BRUSHING_ROUTINE_4080 : String :=
  "characteristic-available-brushing-routine-4080"

/-- Modelled from the spec: opaque routine-length characteristic id from
the missing `const.py`. -/
def CHARACTERISTIC_ROUTINE_LENGTH : String := "characteristic-routine-length"

/-- Modelled from the spec: opaque intensity characteristic id from the
missing `const.py`. -/
def CHARACTERISTIC_INTENSITY : String := "characteristic-intensity"

/-- Modelled from the spec: opaque loaded-session-id characteristic id
from the missing `const.py`. -/
def CHARACTERISTIC_LOADED_SESSION_ID : String := "characteristic-loaded-session-id"

/-- The fixed known set of characteristic identifiers dispatched by
`process_characteristic_value`. -/
def knownCharacteristics : List String :=
  [CHARACTERISTIC_BATTERY_LEVEL,
   CHARACTERISTIC_UPDATED_HANDLE_SESSION_STATE,
   CHARACTERISTIC_BRUSHING_TIME,
   CHARACTERISTIC_AVAILABLE_BRUSHING_ROUTINE_4080,
   CHARACTERISTIC_ROUTINE_LENGTH,
   CHARACTERISTIC_INTENSITY,
   CHARACTERISTIC_LOADED_SESSION_ID]

/-- Python `_start_update(service_info)`: validate the manufacturer data and set
the device identity. `sa` is the external `short_address` collaborator
from `bluetooth_data_tools`, passed in explicitly. Mirrors the Python
control flow: bail out if manufacturer id 477 is absent; otherwise set the
device manufacturer, then bail out if the blob length is not 9 or 999;
otherwise set type, name and title. -/
def _start_update (sa : String → String)
    (manufacturer_data : List (Nat × List Nat)) (address : String)
    (st : DeviceData) : DeviceData :=
  match (manufacturer_data.lookup SONICARE_MANUFACTURER) with
  | none => st
  | some data =>
    let st1 := { st with manufacturer := some "Philips Sonicare" }
    if data.length = 9 ∨ data.length = 999 then
      let name := "HX6340" ++ " " ++ sa address
      { st1 with deviceType := some "HX6340", deviceName := some name,
                 title := some name }
    else st1

/-- The synthesized-or-table label: Python `STATES.get(value[0], ...)`
with a fallback text naming the unknown byte. -/
def stateLabel (b : Nat) : String :=
  (STATES b).getD ("unknown state value " ++ toString b)

/-- Python `process_characteristic_value(characteristic_uuid, value)`:
equality
dispatch over the known characteristic ids; every known branch reads
`value[0]`, which raises `IndexError` on an empty buffer — rendered as
`none`. The unknown-id branch only logs and leaves the state untouched. -/
def process_characteristic_value (uuid : String) (value : List Nat)
    (st : DeviceData) : Option DeviceData :=
  if uuid = CHARACTERISTIC_BATTERY_LEVEL then
    value.head?.map fun b =>
      update_sensor st "battery_level" (some "%") (.nat b) (some "battery") "Battery"
  else if uuid = CHARACTERISTIC_UPDATED_HANDLE_SESSION_STATE then
    value.head?.map fun b =>
      update_sensor st "handle_session_state" none (.str (stateLabel b)) none
        "Handle session state"
  else if uuid = CHARACTERISTIC_BRUSHING_TIME then
    value.head?.map fun b =>
      update_sensor st "brushing_time" none (.nat b) none "Brushing time"
  else if uuid = CHARACTERISTIC_AVAILABLE_BRUSHING_ROUTINE_4080 then
    value.head?.map fun b =>
      update_sensor st "available_brushing_routine" none (.nat b) none
        "Available brushing routine"
  else if uuid = CHARACTERISTIC_ROUTINE_LENGTH then
    value.head?.map fun b =>
      update_sensor st "routine_length" none (.nat b) none "Routine length"
  else if uuid = CHARACTERISTIC_INTENSITY then
    value.head?.map fun b =>
      update_sensor st "intensity" none (.nat b) none "Intensity"
  else if uuid = CHARACTERISTIC_LOADED_SESSION_ID then
    value.head?.map fun b =>
      update_sensor st "loaded_session_id" none (.nat b) none "Loaded session id"
  else
    some st

/-- Python `poll_needed(service_info, last_poll)`. The caller (the external
coordinator) passes `last_poll` as the elapsed seconds since the last
poll, i.e. `now - lastPollTimestamp`, or `None` if never polled. The
interval constants live in the missing `const.py` and are taken as
parameters. `now` stands for `time.monotonic()`. -/
def poll_needed (NOT_BRUSHING_UPDATE_INTERVAL_SECONDS : Int)
    (TIMEOUT_RECENTLY_BRUSHING : Int) (BRUSHING_UPDATE_INTERVAL_SECONDS : Int)
    (st : DeviceData) (now : Int) (last_poll : Option Int) : Bool :=
  match last_poll with
  | none => true
  | some lp =>
    let update_interval :=
      if st.brushing || (now - st.lastBrush ≤ TIMEOUT_RECENTLY_BRUSHING) then
        BRUSHING_UPDATE_INTERVAL_SECONDS
      else NOT_BRUSHING_UPDATE_INTERVAL_SECONDS
    lp > update_interval

/-- Spec-side rendering of the cadence policy, written from the words of
the spec for comparison with the `poll_needed` of the code: interval is the
brushing interval when `isBrushingNow` or `now - lastBrushingObservedAt ≤
RECENT_BRUSHING_TIMEOUT`, else the idle interval; due iff
`now - lastPollTimestamp > interval`. -/
def isPollDue_specSide (IDLE_INTERVAL RECENT_BRUSHING_TIMEOUT BRUSHING_INTERVAL : Int)
    (lastPollTimestamp : Option Int) (isBrushingNow : Bool)
    (lastBrushingObservedAt : Int) (now : Int) : Bool :=
  match lastPollTimestamp with
  | none => true
  | some ts =>
    let interval :=
      if isBrushingNow || (now - lastBrushingObservedAt ≤ RECENT_BRUSHING_TIMEOUT) then
        BRUSHING_INTERVAL
      else IDLE_INTERVAL
    now - ts > interval

/-- One characteristic as enumerated by the transport during a poll
cycle: its id and the outcome of reading it (`.error` when the transport
raises). -/
structure CharEntry where
  uuid : String
  readResult : Except Unit (List Nat)
deriving Repr

/-- The body of the per-characteristic `try` block in `async_poll`: a
transport read error, or an exception inside
`process_characteristic_value` (index error on an empty value), is caught
at the scope of this characteristic and leaves the state as it was. -/
def pollStep (st : DeviceData) (c : CharEntry) : DeviceData :=
  match c.readResult with
  | .error _ => st
  | .ok v => (process_characteristic_value c.uuid v st).getD st

/-- Python `_finish_update()`: the finalized snapshot handed back to the
caller. Finalizing copies the current accumulator contents and mutates
nothing. -/
structure SensorUpdate where
  title : Option String
  deviceType : Option String
  sensors : List (String × SensorReading)
  binarySensors : List (String × Bool)
deriving DecidableEq, Repr

/-- Build the snapshot from the current device data. -/
def _finish_update (st : DeviceData) : SensorUpdate :=
  { title := st.title
    deviceType := st.deviceType
    sensors := st.sensors
    binarySensors := st.binarySensors }

/-- Python `async_poll(ble_device)`: `establish_connection` outside any
handler —
a connection failure propagates; then every enumerated characteristic is
processed inside its own `try`, and the finalized snapshot is returned. -/
def async_poll (conn : Except Unit Unit) (chars : List CharEntry)
    (st : DeviceData) : Except Unit (SensorUpdate × DeviceData) :=
  match conn with
  | .error e => .error e
  | .ok _ =>
    let final := chars.foldl pollStep st
    .ok (_finish_update final, final)

/-- An externally driven event on the device data object: an
advertisement (`_start_update`) or a characteristic value delivered by a
read or a notification (`process_characteristic_value`, exceptions caught
by the poll loop). -/
inductive Op where
  | adv (md : List (Nat × List Nat)) (addr : String)
  | char (uuid : String) (v : List Nat)

/-- Apply one event to the device data. -/
def applyOp (sa : String → String) (st : DeviceData) : Op → DeviceData
  | .adv md addr => _start_update sa md addr st
  | .char uuid v => (process_characteristic_value uuid v st).getD st

/-- C6: whenever `last_poll` is absent (the device has never been polled),
`poll_needed` returns `true`, for every cadence state, every `now` and
every choice of the interval constants. -/
theorem poll_needed_none_always_due (N T B : Int) (st : DeviceData) (now : Int) :
    poll_needed N T B st now none = true := rfl

/-- C3: for every present last-poll timestamp `ts`, every cadence state
and every `now`, the `poll_needed` of the code (whose caller passes
`now - ts` as the elapsed time) agrees with the formula of the spec: due iff
`now - ts > interval`, where interval is the brushing interval when
`isBrushingNow` holds or `now - lastBrushingObservedAt ≤` the
recent-brushing timeout (boundary inclusive), and the idle interval
otherwise. -/
theorem poll_needed_matches_cadence_spec (N T B : Int) (st : DeviceData)
    (now ts : Int) :
    poll_needed N T B st now (some (now - ts)) =
      isPollDue_specSide N T B (some ts) st.brushing st.lastBrush now := rfl

/-- C5: decoding the handle-session-state characteristic on any non-empty
raw value records the label obtained by looking up the first byte in the
fixed 8-entry table (0→off, 1→standby, 2→brushing, 3→charging,
4→shutdown, 5→validate, 6→unknown6, 7→unknown7), and any byte outside 0–7
yields the synthesized label rather than an error; in particular `[2]`
decodes to "brushing" and `[9]` to "unknown state value 9". -/
theorem handle_session_state_decode_table (b : Nat) (rest : List Nat)
    (st : DeviceData) :
    process_characteristic_value CHARACTERISTIC_UPDATED_HANDLE_SESSION_STATE
        (b :: rest) st =
      some (update_sensor st "handle_session_state" none (.str (stateLabel b))
        none "Handle session state") ∧
    stateLabel 0 = "off" ∧ stateLabel 1 = "standby" ∧
    stateLabel 2 = "brushing" ∧ stateLabel 3 = "charging" ∧
    stateLabel 4 = "shutdown" ∧ stateLabel 5 = "validate" ∧
    stateLabel 6 = "unknown6" ∧ stateLabel 7 = "unknown7" ∧
    (∀ m : Nat, stateLabel (m + 8) = "unknown state value " ++ toString (m + 8)) ∧
    stateLabel 9 = "unknown state value 9" := by
  exact ⟨rfl, rfl, rfl, rfl, rfl, rfl, rfl, rfl, rfl, fun m => rfl, rfl⟩

/-- C1, counterexample: an advertisement with manufacturer id 477 present
but a blob of length 1 (not 9 or 999) does mutate the device data —
`set_device_manufacturer("Philips Sonicare")` runs before the length
check — refuting the claim that such an event performs no mutation at
all. -/
theorem advertisement_bad_length_mutates_state :
    _start_update (fun _ => "EEFF") [(477, [0])] "AA:BB:CC:DD:EE:FF"
        initDeviceData ≠ initDeviceData ∧
    (_start_update (fun _ => "EEFF") [(477, [0])] "AA:BB:CC:DD:EE:FF"
        initDeviceData).manufacturer = some "Philips Sonicare" ∧
    initDeviceData.manufacturer = none := by
  refine ⟨fun h => ?_, rfl, rfl⟩
  exact Option.noConfusion (congrArg DeviceData.manufacturer h)

/-- C1, amended: an advertisement lacking manufacturer id 477 is fully
inert; when id 477 is present but the blob length is neither 9 nor 999,
processing sets only the device manufacturer field and leaves the model,
name, title and all readings untouched; the model/name/title identity is
only set once the length check passes. -/
theorem advertisement_validation_amended (sa : String → String)
    (md : List (Nat × List Nat)) (addr : String) (st : DeviceData) :
    (md.lookup SONICARE_MANUFACTURER = none → _start_update sa md addr st = st) ∧
    (∀ data, md.lookup SONICARE_MANUFACTURER = some data →
      data.length ≠ 9 → data.length ≠ 999 →
      _start_update sa md addr st =
        { st with manufacturer := some "Philips Sonicare" }) := by
  constructor
  · intro h
    simp [_start_update, h]
  · intro data h h9 h999
    simp [_start_update, h, h9, h999]

/-- Witness for the amended C1 at concrete inputs: empty manufacturer
data is inert, and a 1-byte blob under id 477 changes only the
manufacturer field. -/
theorem advertisement_validation_amended_witness :
    _start_update (fun _ => "EEFF") [] "AA:BB:CC:DD:EE:FF" initDeviceData =
      initDeviceData ∧
    _start_update (fun _ => "EEFF") [(477, [0])] "AA:BB:CC:DD:EE:FF"
        initDeviceData =
      { initDeviceData with manufacturer := some "Philips Sonicare" } :=
  ⟨(advertisement_validation_amended (fun _ => "EEFF") [] "AA:BB:CC:DD:EE:FF"
      initDeviceData).1 rfl,
   (advertisement_validation_amended (fun _ => "EEFF") [(477, [0])]
      "AA:BB:CC:DD:EE:FF" initDeviceData).2 [0] rfl (by decide) (by decide)⟩

/-- C2, code evaluated at the failing input: decoding a handle-session
state reading of `[2]` ("brushing") records the sensor label but leaves
`_brushing` at `False` and `_last_brush` at `0.0` — no decode path ever
writes them, contradicting the claim (and the `__init__` comment of the
code itself and its use in `poll_needed`). -/
theorem brushing_reading_does_not_update_cadence_state :
    ((process_characteristic_value CHARACTERISTIC_UPDATED_HANDLE_SESSION_STATE
        [2] initDeviceData).map fun st => (st.brushing, st.lastBrush)) =
      some (false, 0) ∧
    initDeviceData.brushing = false ∧ initDeviceData.lastBrush = 0 :=
  ⟨rfl, rfl, rfl⟩

/-- C7: a characteristic identifier outside the fixed known set falls
into the final `else` branch, which only logs: the decode returns the
accumulator unchanged, so every existing sensor and binary-sensor key is
untouched. -/
theorem unknown_characteristic_is_inert (uuid : String)
    (h : uuid ∉ knownCharacteristics) (value : List Nat) (st : DeviceData) :
    process_characteristic_value uuid value st = some st := by
  simp only [knownCharacteristics, List.mem_cons, List.not_mem_nil, or_false,
    not_or] at h
  obtain ⟨h1, h2, h3, h4, h5, h6, h7⟩ := h
  simp [process_characteristic_value, h1, h2, h3, h4, h5, h6, h7]

/-- Witness for C7: a concrete unrecognized identifier with a non-empty
value leaves the fresh accumulator unchanged. -/
theorem unknown_characteristic_is_inert_witness :
    process_characteristic_value "unrecognized-uuid" [0] initDeviceData =
      some initDeviceData :=
  unknown_characteristic_is_inert "unrecognized-uuid" (by decide) [0]
    initDeviceData

/-- C8: decoding the battery-level characteristic with raw value `[80]`
records a battery_level reading with value 80, unit percentage and device
class battery; and an advertisement carrying any 9-byte blob under
manufacturer id 477 resolves an identity whose display title contains the
canonical model string "HX6340" and the short form of the address
(whatever the external `short_address` collaborator returns). -/
theorem battery_decode_and_identity_resolution (sa : String → String)
    (md : List (Nat × List Nat)) (data : List Nat) (addr : String)
    (st st' : DeviceData)
    (hmd : md.lookup SONICARE_MANUFACTURER = some data)
    (hlen : data.length = 9) :
    process_characteristic_value CHARACTERISTIC_BATTERY_LEVEL [80] st =
      some (update_sensor st "battery_level" (some "%") (.nat 80)
        (some "battery") "Battery") ∧
    ∃ title : String, (_start_update sa md addr st').title = some title ∧
      (∃ p q, title.data = p ++ "HX6340".data ++ q) ∧
      (∃ p q, title.data = p ++ (sa addr).data ++ q) := by
  refine ⟨rfl, "HX6340" ++ " " ++ sa addr, ?_, ?_, ?_⟩
  · simp [_start_update, hmd, hlen]
  · exact ⟨[], " ".data ++ (sa addr).data, by
      show ("HX6340".data ++ " ".data) ++ (sa addr).data =
        [] ++ "HX6340".data ++ (" ".data ++ (sa addr).data)
      simp⟩
  · exact ⟨"HX6340".data ++ " ".data, [], by
      show ("HX6340".data ++ " ".data) ++ (sa addr).data =
        ("HX6340".data ++ " ".data) ++ (sa addr).data ++ []
      simp⟩

/-- Witness for C8 at concrete inputs: a nine-zero-byte blob under id 477
with address "AA:BB:CC:DD:EE:FF" and a stand-in short-address function. -/
theorem battery_decode_and_identity_resolution_witness :
    process_characteristic_value CHARACTERISTIC_BATTERY_LEVEL [80]
        initDeviceData =
      some (update_sensor initDeviceData "battery_level" (some "%") (.nat 80)
        (some "battery") "Battery") ∧
    ∃ title : String,
      (_start_update (fun _ => "EEFF") [(477, List.replicate 9 0)]
          "AA:BB:CC:DD:EE:FF" initDeviceData).title = some title ∧
      (∃ p q, title.data = p ++ "HX6340".data ++ q) ∧
      (∃ p q, title.data = p ++ "EEFF".data ++ q) :=
  battery_decode_and_identity_resolution (fun _ => "EEFF")
    [(477, List.replicate 9 0)] (List.replicate 9 0) "AA:BB:CC:DD:EE:FF"
    initDeviceData initDeviceData rfl (by decide)

/-- C9: for every known characteristic identifier and every non-empty raw
value, the decode succeeds (no index error under the non-emptiness
precondition) and its result depends only on the first byte: the tail of
the value is never read. -/
theorem known_characteristic_reads_only_first_byte (uuid : String)
    (h : uuid ∈ knownCharacteristics) (b : Nat) (rest : List Nat)
    (st : DeviceData) :
    (process_characteristic_value uuid (b :: rest) st).isSome = true ∧
    process_characteristic_value uuid (b :: rest) st =
      process_characteristic_value uuid [b] st := by
  simp only [knownCharacteristics, List.mem_cons, List.not_mem_nil,
    or_false] at h
  rcases h with rfl | rfl | rfl | rfl | rfl | rfl | rfl <;> exact ⟨rfl, rfl⟩

/-- Witness for C9 at the battery-level characteristic with raw value
`[80, 1]`: decoding succeeds and agrees with decoding `[80]`. -/
theorem known_characteristic_reads_only_first_byte_witness :
    (process_characteristic_value CHARACTERISTIC_BATTERY_LEVEL (80 :: [1])
        initDeviceData).isSome = true ∧
    process_characteristic_value CHARACTERISTIC_BATTERY_LEVEL (80 :: [1])
        initDeviceData =
      process_characteristic_value CHARACTERISTIC_BATTERY_LEVEL [80]
        initDeviceData :=
  known_characteristic_reads_only_first_byte CHARACTERISTIC_BATTERY_LEVEL
    (by decide) 80 [1] initDeviceData

/-- Frame helper: advertisement processing never touches the
binary-sensor map. -/
theorem start_update_preserves_binarySensors (sa : String → String)
    (md : List (Nat × List Nat)) (addr : String) (st : DeviceData) :
    (_start_update sa md addr st).binarySensors = st.binarySensors := by
  unfold _start_update
  cases md.lookup SONICARE_MANUFACTURER
  · rfl
  · dsimp only
    split <;> rfl

/-- Frame helper: no characteristic decode path (with exceptions caught
as in the poll loop) touches the binary-sensor map. -/
theorem process_getD_preserves_binarySensors (uuid : String) (v : List Nat)
    (st : DeviceData) :
    ((process_characteristic_value uuid v st).getD st).binarySensors =
      st.binarySensors := by
  rcases v with _ | ⟨b, rest⟩ <;>
    (unfold process_characteristic_value; repeat' split) <;> rfl

/-- Frame helper: neither advertisement processing nor any characteristic
decode path touches the binary-sensor map. -/
theorem applyOp_preserves_binarySensors (sa : String → String)
    (st : DeviceData) (op : Op) :
    (applyOp sa st op).binarySensors = st.binarySensors := by
  cases op with
  | adv md addr =>
    simp only [applyOp]
    exact start_update_preserves_binarySensors sa md addr st
  | char uuid v =>
    simp only [applyOp]
    exact process_getD_preserves_binarySensors uuid v st

/-- C10: although the binary-sensor key "brushing" is declared, no
operation of the device data class ever records a binary-sensor value:
after any sequence of advertisement and characteristic events starting
from a fresh device, the binary-sensor map of the finalized snapshot is
empty. -/
theorem no_binary_sensor_ever_recorded (sa : String → String)
    (ops : List Op) :
    (_finish_update (ops.foldl (applyOp sa) initDeviceData)).binarySensors =
      [] := by
  suffices h : ∀ st, (ops.foldl (applyOp sa) st).binarySensors =
      st.binarySensors by
    simpa [_finish_update] using h initDeviceData
  induction ops with
  | nil => intro st; rfl
  | cons op rest ih =>
    intro st
    simp only [List.foldl_cons]
    rw [ih, applyOp_preserves_binarySensors]

/-- C4: within one poll cycle, a characteristic whose read raises is
caught at its own scope — the outcome of the poll is exactly as if that
characteristic were skipped, the remaining characteristics are still
processed, and the poll still returns a finalized snapshot — while a
failure of `establish_connection` itself propagates to the caller. -/
theorem per_characteristic_fault_isolation (xs ys : List CharEntry)
    (c : CharEntry) (st : DeviceData) (hc : c.readResult = .error ()) :
    (async_poll (.ok ()) (xs ++ c :: ys) st =
        async_poll (.ok ()) (xs ++ ys) st ∧
      ∃ snap final,
        async_poll (.ok ()) (xs ++ c :: ys) st = .ok (snap, final)) ∧
    ∀ (chars : List CharEntry) (st' : DeviceData),
      async_poll (.error ()) chars st' = .error () := by
  have hstep : ∀ s, pollStep s c = s := by
    intro s
    unfold pollStep
    rw [hc]
  refine ⟨⟨?_, ⟨_, _, rfl⟩⟩, fun chars st' => rfl⟩
  simp only [async_poll, List.foldl_append, List.foldl_cons, hstep]

/-- Witness for C4: a one-characteristic cycle whose only read fails
still returns a snapshot and equals the empty cycle; a failed connection
propagates. -/
theorem per_characteristic_fault_isolation_witness :
    (async_poll (.ok ()) ([] ++ ⟨"u", .error ()⟩ :: []) initDeviceData =
        async_poll (.ok ()) ([] ++ []) initDeviceData ∧
      ∃ snap final,
        async_poll (.ok ()) ([] ++ ⟨"u", .error ()⟩ :: []) initDeviceData =
          .ok (snap, final)) ∧
    ∀ (chars : List CharEntry) (st' : DeviceData),
      async_poll (.error ()) chars st' = .error () :=
  per_characteristic_fault_isolation [] [] ⟨"u", .error ()⟩ initDeviceData rfl

end Sonicare
